import Mathlib

/-!
Shallow embedding of the FastAPI blog API repository.

The repository contains two parallel implementations of the same blog API:
* `backend/app.py` — query-builder variant (SQLAlchemy core + `databases`),
* `tortoise/app.py` + `tortoise/models.py` — ORM variant (Tortoise ORM).

We model the relational store as two lists of rows plus auto-increment
counters (ids are assigned by storage and, per the spec invariant, never
reused), timestamps as natural numbers, and each request handler as a pure
function from the store and the parsed request to the new store and an
HTTP-level response (`Except` of a status code, or of a status code paired
with a `detail` string where the source attaches one).
-/

namespace FastApiBlog

/-- A row of the `posts` table: columns `id`, `title`, `content`,
`publication_date` (models.py `PostTortoise` / the SQLAlchemy `posts` table). -/
structure PostRow where
  id : Nat
  title : String
  content : String
  publication_date : Nat
deriving Repr, DecidableEq

/-- A row of the `comments` table: columns `id`, `post_id`, `content`,
`publication_date` (models.py `CommentTortoise` / the SQLAlchemy `comments`
table; the foreign key `post_id` references `posts.id`). -/
structure CommentRow where
  id : Nat
  post_id : Nat
  content : String
  publication_date : Nat
deriving Repr, DecidableEq

/-- The relational store: the two tables plus the storage engine's
auto-increment counters for the primary keys. -/
structure DB where
  posts : List PostRow
  comments : List CommentRow
  nextPostId : Nat
  nextCommentId : Nat
deriving Repr, DecidableEq

/-- Storage well-formedness: every assigned primary key is below the
auto-increment counter of its table, and every comment's `post_id` was an
existing (hence already-assigned) post id when the comment was created. -/
def WF (db : DB) : Prop :=
  (∀ p ∈ db.posts, p.id < db.nextPostId) ∧
  (∀ c ∈ db.comments, c.id < db.nextCommentId) ∧
  (∀ c ∈ db.comments, c.post_id < db.nextPostId)

instance (db : DB) : Decidable (WF db) := by
  unfold WF; infer_instance

/-- Query `SELECT * FROM posts WHERE posts.id = id` fetching one row
(`database.fetch_one` / `PostTortoise.get(id=id)`). -/
def findPost (db : DB) (id : Nat) : Option PostRow :=
  db.posts.find? (fun p => p.id == id)

/-- Query `SELECT * FROM comments WHERE comments.post_id = id` fetching all rows
(`database.fetch_all` / the `prefetch_related("comments")` relation). -/
def relatedComments (db : DB) (id : Nat) : List CommentRow :=
  db.comments.filter (fun c => c.post_id == id)

/-- Pydantic model `PostCreate` (title, content, publication_date) as the
handler receives it, after request-body validation has run the
`default_factory` for an omitted `publication_date`. -/
structure PostCreate where
  title : String
  content : String
  publication_date : Nat
deriving Repr, DecidableEq

/-- Request-body validation of a `PostCreate`: pydantic's
`Field(default_factory=datetime.now)` fills an omitted `publication_date`
with the current time. -/
def parsePostCreate (title content : String) (pub? : Option Nat) (now : Nat) :
    PostCreate :=
  ⟨title, content, pub?.getD now⟩

/-- Pydantic model `PostPartialUpdate`: `title` and `content` both
`Optional[...] = None`; `none` models a field absent from the request body
(the source applies `.dict(exclude_unset=True)`). -/
structure PostPartialUpdate where
  title : Option String
  content : Option String
deriving Repr, DecidableEq

/-- Pydantic model `PostPublic`: a `PostDB` plus the materialized
`comments` collection. -/
structure PostPublic where
  id : Nat
  title : String
  content : String
  publication_date : Nat
  comments : List CommentRow
deriving Repr, DecidableEq

/-- Pydantic model `PostDB`: the bare stored representation, without
comments. -/
structure PostDBModel where
  id : Nat
  title : String
  content : String
  publication_date : Nat
deriving Repr, DecidableEq

/-- Pydantic model `CommentBase`/`CommentCreate` (post_id, content,
publication_date) after request-body validation has resolved the
`default_factory` default. -/
structure CommentCreate where
  post_id : Nat
  content : String
  publication_date : Nat
deriving Repr, DecidableEq

/-- Applying `.values(post_update.dict(exclude_unset=True))` to one stored
row: exactly the fields present in the body are overwritten, every other
column keeps its prior value. -/
def applyPartialUpdate (upd : PostPartialUpdate) (p : PostRow) : PostRow :=
  { p with
    title := upd.title.getD p.title
    content := upd.content.getD p.content }

/-! ### Query-builder variant: `backend/app.py` -/

namespace Backend

/-- Helper `pagination` (backend/app.py): returns `(skip, min(100, limit))`.
Inputs are already validated `ge=0` at the boundary. -/
def pagination (skip : Int) (limit : Int) : Int × Int :=
  let capped_limit := min 100 limit
  (skip, capped_limit)

/-- Dependency `get_post_or_404` (backend/app.py): fetch the post row; if absent raise
`HTTPException(404)`; otherwise fetch all its comments and return the
`PostPublic`. -/
def get_post_or_404 (db : DB) (id : Nat) : Except Nat PostPublic :=
  match findPost db id with
  | none => .error 404
  | some raw_post =>
      .ok ⟨raw_post.id, raw_post.title, raw_post.content,
           raw_post.publication_date, relatedComments db id⟩

/-- Handler `create_post` (backend/app.py): `posts.insert().values(post.dict())`;
storage assigns the next auto-increment id, which `database.execute`
returns. (The handler then reads the post back via `get_post_or_404`,
which the theorems state directly.) -/
def create_post (db : DB) (post : PostCreate) : DB × Nat :=
  let row : PostRow :=
    ⟨db.nextPostId, post.title, post.content, post.publication_date⟩
  ({ db with posts := db.posts ++ [row], nextPostId := db.nextPostId + 1 },
   db.nextPostId)

/-- Success status of `create_post`, from the decorator
`status_code=status.HTTP_201_CREATED`. -/
def create_post_status : Nat := 201

/-- Handler `update_post` (backend/app.py): the `get_post_or_404` dependency runs
first (404 if absent); then `UPDATE posts SET <present fields> WHERE
posts.id = post.id`; then the response is a fresh `get_post_or_404`
read-back. -/
def update_post (db : DB) (id : Nat) (post_update : PostPartialUpdate) :
    DB × Except Nat PostPublic :=
  match get_post_or_404 db id with
  | .error e => (db, .error e)
  | .ok post =>
      let db' := { db with
        posts := db.posts.map (fun p =>
          if p.id == post.id then applyPartialUpdate post_update p else p) }
      (db', get_post_or_404 db' post.id)

/-- Handler `delete_post` (backend/app.py): the `get_post_or_404` dependency runs
first (404 if absent); then a single `DELETE FROM posts WHERE posts.id =
post.id`; nothing touches the comments table. -/
def delete_post (db : DB) (id : Nat) : DB × Except Nat Unit :=
  match get_post_or_404 db id with
  | .error e => (db, .error e)
  | .ok post =>
      ({ db with posts := db.posts.filter (fun p => !(p.id == post.id)) },
       .ok ())

/-- Success status of `delete_post`, from the decorator
`status_code=status.HTTP_204_NO_CONTENT`. -/
def delete_post_status : Nat := 204

/-- The `detail` string of the 400 raised by `create_comment`:
`f"Post {id} does not exist"`. No local variable `id` is in scope in
`create_comment`, so `{id}` interpolates the Python builtin function `id`,
whose `str()` is the fixed text `<built-in function id>`; the requested
`post_id` never appears. -/
def comment_error_detail (post_id : Nat) : String :=
  "Post <built-in function id> does not exist"

/-- Handler `create_comment` (backend/app.py): look the referenced post up; if
absent raise `HTTPException(400, detail=...)` and insert nothing; else
insert the comment row, then read it back by the returned id
(`comments.select().where(comments.c.id == comment_id)`). The decorator
sets success status 201. (If the read-back found no row, `CommentDB(**None)`
would crash: an unhandled error, HTTP 500.) -/
def create_comment (db : DB) (comment : CommentCreate) :
    DB × Except (Nat × String) CommentRow :=
  match findPost db comment.post_id with
  | none => (db, .error (400, comment_error_detail comment.post_id))
  | some _ =>
      let row : CommentRow :=
        ⟨db.nextCommentId, comment.post_id, comment.content,
         comment.publication_date⟩
      let db' := { db with
        comments := db.comments ++ [row],
        nextCommentId := db.nextCommentId + 1 }
      match db'.comments.find? (fun r => r.id == db.nextCommentId) with
      | some raw_comment => (db', .ok raw_comment)
      | none => (db', .error (500, ""))

/-- Success status of `create_comment`, from the decorator
`status_code=status.HTTP_201_CREATED`. -/
def create_comment_status : Nat := 201

/-- The route table registered on the backend `app`: each decorator's HTTP
method and path string, in source order. Note the missing leading slash in
`@app.get("posts/{id}", ...)`. -/
def routes : List (String × String) :=
  [("GET", "/posts"),
   ("GET", "posts/{id}"),
   ("POST", "/posts"),
   ("PATCH", "/posts/{id}"),
   ("DELETE", "/posts/{id}"),
   ("POST", "/comments")]

end Backend

/-! ### ORM variant: `tortoise/app.py` -/

namespace Tortoise

/-- Helper `pagination` (tortoise/app.py): textually the same helper as the
backend's. -/
def pagination (skip : Int) (limit : Int) : Int × Int :=
  let capped_limit := min 100 limit
  (skip, capped_limit)

/-- Dependency `get_post_or_404` (tortoise/app.py): `PostTortoise.get(id=id)
.prefetch_related("comments")`; `DoesNotExist` is translated to
`HTTPException(404)`. The prefetched entity carries its comment
collection. -/
def get_post_or_404 (db : DB) (id : Nat) : Except Nat PostPublic :=
  match findPost db id with
  | none => .error 404
  | some p =>
      .ok ⟨p.id, p.title, p.content, p.publication_date,
           relatedComments db id⟩

/-- Handler `create_post` (tortoise/app.py): `PostTortoise.create(**post.dict())`;
storage assigns the next auto-increment id; the response is
`PostDB.from_orm` of the created entity. -/
def create_post (db : DB) (post : PostCreate) : DB × Nat :=
  let row : PostRow :=
    ⟨db.nextPostId, post.title, post.content, post.publication_date⟩
  ({ db with posts := db.posts ++ [row], nextPostId := db.nextPostId + 1 },
   db.nextPostId)

/-- Success status of `create_post`, from the decorator
`status_code=status.HTTP_201_CREATED`. -/
def create_post_status : Nat := 201

/-- Handler `update_post` (tortoise/app.py): the `get_post_or_404` dependency runs
first; `post.update_from_dict(post_update.dict(exclude_unset=True))` then
`post.save()` persists exactly the present fields; the response is
`PostDB.from_orm(post)` — the mutated in-memory entity re-serialized as a
bare `PostDB`, with no re-read of comments. -/
def update_post (db : DB) (id : Nat) (post_update : PostPartialUpdate) :
    DB × Except Nat PostDBModel :=
  match get_post_or_404 db id with
  | .error e => (db, .error e)
  | .ok post =>
      let db' := { db with
        posts := db.posts.map (fun p =>
          if p.id == post.id then applyPartialUpdate post_update p else p) }
      (db', .ok ⟨post.id, post_update.title.getD post.title,
                 post_update.content.getD post.content,
                 post.publication_date⟩)

/-- Handler `delete_post` (tortoise/app.py): the `get_post_or_404` dependency runs
first; `post.delete()` removes the row. `CommentTortoise.post` is a
`ForeignKeyField` with no explicit `on_delete`, and Tortoise ORM's default
policy is `CASCADE`, so the dependent comment rows are removed with the
post. -/
def delete_post (db : DB) (id : Nat) : DB × Except Nat Unit :=
  match get_post_or_404 db id with
  | .error e => (db, .error e)
  | .ok post =>
      ({ db with
         posts := db.posts.filter (fun p => !(p.id == post.id)),
         comments := db.comments.filter (fun c => !(c.post_id == post.id)) },
       .ok ())

/-- Success status of `delete_post`, from the decorator
`status_code=status.HTTP_204_NO_CONTENT`. -/
def delete_post_status : Nat := 204

/-- The `detail` string of the 400 raised by `create_comment`
(tortoise/app.py): the same `f"Post {id} does not exist"` with `{id}` the
Python builtin, so the same fixed text as the backend's. -/
def comment_error_detail (post_id : Nat) : String :=
  "Post <built-in function id> does not exist"

/-- Handler `create_comment` (tortoise/app.py): `PostTortoise.get(id=comment
.post_id)`; on `DoesNotExist` raise `HTTPException(400, detail=...)` and
insert nothing; else `CommentTortoise.create(**comment.dict())` and return
`CommentDB.from_orm` of the created entity (no read-back). -/
def create_comment (db : DB) (comment : CommentCreate) :
    DB × Except (Nat × String) CommentRow :=
  match findPost db comment.post_id with
  | none => (db, .error (400, comment_error_detail comment.post_id))
  | some _ =>
      let row : CommentRow :=
        ⟨db.nextCommentId, comment.post_id, comment.content,
         comment.publication_date⟩
      ({ db with
         comments := db.comments ++ [row],
         nextCommentId := db.nextCommentId + 1 },
       .ok row)

/-- Success status of `create_comment`, from the decorator
`status_code=status.HTTP_201_CREATED`. -/
def create_comment_status : Nat := 201

/-- The route table registered on the tortoise `app`: each decorator's HTTP
method and path string, in source order. -/
def routes : List (String × String) :=
  [("GET", "/posts"),
   ("GET", "/posts/{id}"),
   ("POST", "/posts"),
   ("PATCH", "/posts/{id}"),
   ("DELETE", "/posts/{id}"),
   ("POST", "/comments")]

end Tortoise

/-! ### Concrete example states (used by witnesses) -/

/-- A stored post. -/
def examplePost : PostRow := ⟨1, "A", "B", 5⟩

/-- A stored comment attached to `examplePost`. -/
def exampleComment : CommentRow := ⟨1, 1, "C", 6⟩

/-- A well-formed store holding one post with one comment. -/
def exampleDB : DB := ⟨[examplePost], [exampleComment], 2, 2⟩

/-- An empty store. -/
def emptyDB : DB := ⟨[], [], 1, 1⟩

/-- FastAPI's `response_model=PostDB` serialization filter, declared on
both variants' PATCH route (`@app.patch("/posts/{id}",
response_model=PostDB)`): the returned object is filtered down to the
declared model's fields before serialization, so a returned `PostPublic`
(which extends `PostDB` with `comments`) loses its `comments` key in the
HTTP response. -/
def respModelFilterPostDB (p : PostPublic) : PostDBModel :=
  ⟨p.id, p.title, p.content, p.publication_date⟩

/-- Predicate stating `needle` occurs as a contiguous run inside `hay`. -/
def containsSeq (needle hay : List Char) : Prop :=
  ∃ l₁ l₂, hay = l₁ ++ needle ++ l₂

/-! ### Helper lemmas -/

/-- Unfolding of one step of `Nat.toDigitsCore` at base 10. -/
theorem toDigitsCore_succ (fuel n : Nat) (ds : List Char) :
    Nat.toDigitsCore 10 (fuel + 1) n ds =
      if n / 10 = 0 then Nat.digitChar (n % 10) :: ds
      else Nat.toDigitsCore 10 fuel (n / 10) (Nat.digitChar (n % 10) :: ds) := by
  rw [Nat.toDigitsCore]

/-- Every digit character of a base-10 digit is an ASCII digit. -/
theorem digitChar_isDigit : ∀ d : Nat, d < 10 → (Nat.digitChar d).isDigit = true := by
  decide

/-- All characters produced by `Nat.toDigitsCore` at base 10 are digits,
provided the accumulator holds only digits. -/
theorem toDigitsCore_digits :
    ∀ (fuel n : Nat) (acc : List Char), (∀ c ∈ acc, c.isDigit = true) →
      ∀ c ∈ Nat.toDigitsCore 10 fuel n acc, c.isDigit = true := by
  intro fuel
  induction fuel with
  | zero =>
    intro n acc hacc
    simpa [Nat.toDigitsCore] using hacc
  | succ fuel ih =>
    intro n acc hacc c hc
    rw [toDigitsCore_succ] at hc
    have hd : (Nat.digitChar (n % 10)).isDigit = true :=
      digitChar_isDigit _ (Nat.mod_lt _ (by norm_num))
    have hcons : ∀ x ∈ Nat.digitChar (n % 10) :: acc, x.isDigit = true := by
      intro x hx
      rcases List.mem_cons.mp hx with he | hm
      · simpa [he] using hd
      · exact hacc x hm
    by_cases h10 : n / 10 = 0
    · rw [if_pos h10] at hc
      exact hcons c hc
    · rw [if_neg h10] at hc
      exact ih (n / 10) (Nat.digitChar (n % 10) :: acc) hcons c hc

/-- Function `Nat.toDigitsCore` never empties a nonempty accumulator. -/
theorem toDigitsCore_ne_nil :
    ∀ (fuel n : Nat) (acc : List Char), acc ≠ [] →
      Nat.toDigitsCore 10 fuel n acc ≠ [] := by
  intro fuel
  induction fuel with
  | zero =>
    intro n acc hacc
    simpa [Nat.toDigitsCore] using hacc
  | succ fuel ih =>
    intro n acc hacc
    rw [toDigitsCore_succ]
    by_cases h10 : n / 10 = 0
    · simp [h10]
    · rw [if_neg h10]
      exact ih _ _ (by simp)

/-- The decimal rendering of a natural number is never empty. -/
theorem toDigits_ne_nil (n : Nat) : Nat.toDigits 10 n ≠ [] := by
  unfold Nat.toDigits
  rw [toDigitsCore_succ]
  by_cases h10 : n / 10 = 0
  · simp [h10]
  · rw [if_neg h10]
    exact toDigitsCore_ne_nil _ _ _ (by simp)

/-- The character list of `Nat.repr`. -/
theorem repr_toList (n : Nat) : (Nat.repr n).toList = Nat.toDigits 10 n := rfl

/-- Every character of the decimal rendering of a natural number is a
digit. -/
theorem repr_chars_isDigit (n : Nat) :
    ∀ c ∈ (Nat.repr n).toList, c.isDigit = true := by
  intro c hc
  rw [repr_toList] at hc
  exact toDigitsCore_digits (n + 1) n [] (by simp) c hc

/-- The decimal rendering of a natural number is a nonempty string. -/
theorem repr_toList_ne_nil (n : Nat) : (Nat.repr n).toList ≠ [] := by
  rw [repr_toList]
  exact toDigits_ne_nil n

/-- A nonempty all-digit run never occurs inside a digit-free character
list. -/
theorem not_containsSeq_of_no_digit {needle hay : List Char}
    (hne : needle ≠ []) (hd : ∀ c ∈ needle, c.isDigit = true)
    (hh : ∀ c ∈ hay, c.isDigit = false) : ¬ containsSeq needle hay := by
  rintro ⟨l₁, l₂, rfl⟩
  obtain ⟨c, cs, rfl⟩ := List.exists_cons_of_ne_nil hne
  have hcmem : c ∈ l₁ ++ (c :: cs) ++ l₂ := by simp
  have hfalse := hh c hcmem
  have htrue := hd c (by simp)
  simp [htrue] at hfalse

/-- Searching an appended list when the left part has no match. -/
theorem find?_append_right {α} (p : α → Bool) {l₁ l₂ : List α}
    (h : l₁.find? p = none) : (l₁ ++ l₂).find? p = l₂.find? p := by
  rw [List.find?_append, h, Option.none_or]

/-- Looking a freshly inserted row up by its key finds exactly that row,
provided no stored row already carries the key. -/
theorem find?_key_insert {α} (key : α → Nat) (l : List α) (a : α) (k : Nat)
    (hk : key a = k) (h : ∀ x ∈ l, key x ≠ k) :
    (l ++ [a]).find? (fun x => key x == k) = some a := by
  rw [find?_append_right]
  · simp [List.find?, hk]
  · exact List.find?_eq_none.mpr (fun x hx => by simpa using h x hx)

/-- Searching by key through a map that preserves keys. -/
theorem find?_key_map {α} (key : α → Nat) (g : α → α)
    (hg : ∀ x, key (g x) = key x) (l : List α) (k : Nat) :
    (l.map g).find? (fun x => key x == k) =
      (l.find? (fun x => key x == k)).map g := by
  rw [List.find?_map]
  have hcomp : ((fun x => key x == k) ∘ g) = (fun x => key x == k) := by
    funext x
    simp [Function.comp, hg]
  rw [hcomp]

/-- A found post row carries the searched id. -/
theorem findPost_id {db : DB} {id : Nat} {r : PostRow}
    (h : findPost db id = some r) : r.id = id := by
  have := List.find?_some h
  simpa using this

/-- Updating via `applyPartialUpdate` never touches the `id` column. -/
theorem applyPartialUpdate_id (upd : PostPartialUpdate) (p : PostRow) :
    (applyPartialUpdate upd p).id = p.id := rfl

/-- Updating via `applyPartialUpdate` never touches the `publication_date` column. -/
theorem applyPartialUpdate_pub (upd : PostPartialUpdate) (p : PostRow) :
    (applyPartialUpdate upd p).publication_date = p.publication_date := rfl

/-- After the `UPDATE ... WHERE posts.id = id`, looking the id up finds the
updated first match. -/
theorem find?_update_where (posts : List PostRow) (id : Nat)
    (upd : PostPartialUpdate) (r : PostRow)
    (h : posts.find? (fun p => p.id == id) = some r) :
    (posts.map (fun p =>
        if p.id == id then applyPartialUpdate upd p else p)).find?
      (fun p => p.id == id) = some (applyPartialUpdate upd r) := by
  have hg : ∀ p : PostRow,
      ((fun p => if p.id == id then applyPartialUpdate upd p else p) p).id
        = p.id := by
    intro p
    by_cases hp : p.id == id <;> simp [hp, applyPartialUpdate_id]
  have := find?_key_map PostRow.id
    (fun p => if p.id == id then applyPartialUpdate upd p else p) hg posts id
  rw [this, h]
  have hr : r.id = id := by simpa using List.find?_some h
  simp [hr]

/-! ### Claim theorems -/

/-- C3: for all integers `skip ≥ 0` and `limit ≥ 0`, both variants'
`pagination` returns exactly `(skip, min(100, limit))`: for `limit > 100`
the effective page size is exactly 100, for `limit ≤ 100` both values pass
through unchanged, and `skip` is never capped. -/
theorem pagination_caps_limit_only (skip limit : Int)
    (hs : 0 ≤ skip) (hl : 0 ≤ limit) :
    Backend.pagination skip limit = (skip, min 100 limit) ∧
    Tortoise.pagination skip limit = (skip, min 100 limit) ∧
    (100 < limit → (Backend.pagination skip limit).2 = 100 ∧
      (Tortoise.pagination skip limit).2 = 100) ∧
    (limit ≤ 100 → Backend.pagination skip limit = (skip, limit) ∧
      Tortoise.pagination skip limit = (skip, limit)) ∧
    (Backend.pagination skip limit).1 = skip ∧
    (Tortoise.pagination skip limit).1 = skip := by
  refine ⟨rfl, rfl, fun h => ?_, fun h => ?_, rfl, rfl⟩
  · constructor <;>
      simp [Backend.pagination, Tortoise.pagination, min_eq_left h.le]
  · constructor <;>
      simp [Backend.pagination, Tortoise.pagination, min_eq_right h]

/-- Witness for C3 at `skip = 7`, `limit = 250`. -/
theorem pagination_caps_limit_only_witness :
    Backend.pagination 7 250 = (7, 100) ∧ Tortoise.pagination 7 250 = (7, 100) := by
  have h := pagination_caps_limit_only 7 250 (by norm_num) (by norm_num)
  exact ⟨h.1.trans (by norm_num), h.2.1.trans (by norm_num)⟩

/-- C7 (code bug evidence): the ORM variant registers the single-post read
at `GET /posts/{id}`, but the query-builder variant registers the path
string `"posts/{id}"` without the leading slash, so its route table does
not contain `("GET", "/posts/{id}")` and the two variants' HTTP surfaces
differ at this endpoint. -/
theorem single_post_route_diverges :
    ("GET", "/posts/{id}") ∈ Tortoise.routes ∧
    ("GET", "/posts/{id}") ∉ Backend.routes ∧
    ("GET", "posts/{id}") ∈ Backend.routes ∧
    Backend.routes ≠ Tortoise.routes := by
  refine ⟨by decide, by decide, by decide, by decide⟩

/-- C4: in both variants the existence-check helper signals 404 exactly
when no post with the identifier exists; when the post exists it returns
that post together with its materialized comment collection, and every
comment in that collection has `post_id` equal to the requested
identifier. -/
theorem get_post_or_404_contract (db : DB) (id : Nat) :
    (Backend.get_post_or_404 db id = .error 404 ↔ findPost db id = none) ∧
    (Tortoise.get_post_or_404 db id = .error 404 ↔ findPost db id = none) ∧
    (∀ p, findPost db id = some p →
      Backend.get_post_or_404 db id =
        .ok ⟨p.id, p.title, p.content, p.publication_date,
             relatedComments db id⟩ ∧
      Tortoise.get_post_or_404 db id =
        .ok ⟨p.id, p.title, p.content, p.publication_date,
             relatedComments db id⟩ ∧
      ∀ c ∈ relatedComments db id, c.post_id = id) := by
  refine ⟨?_, ?_, fun p hp => ⟨?_, ?_, fun c hc => ?_⟩⟩
  · unfold Backend.get_post_or_404
    cases h : findPost db id <;> simp [h]
  · unfold Tortoise.get_post_or_404
    cases h : findPost db id <;> simp [h]
  · simp [Backend.get_post_or_404, hp]
  · simp [Tortoise.get_post_or_404, hp]
  · have := (List.mem_filter.mp hc).2
    simpa using this

/-- C1: in both variants, creating a comment whose `post_id` names no
existing post returns HTTP 400 (not 404) and leaves the store — in
particular the comments table — unchanged; for a `post_id` that names an
existing post the comment row is inserted and the full stored comment is
returned, with success status 201. -/
theorem create_comment_contract (db : DB) (comment : CommentCreate)
    (hwf : WF db) :
    (findPost db comment.post_id = none →
      Backend.create_comment db comment =
        (db, .error (400, Backend.comment_error_detail comment.post_id)) ∧
      Tortoise.create_comment db comment =
        (db, .error (400, Tortoise.comment_error_detail comment.post_id))) ∧
    (∀ p, findPost db comment.post_id = some p →
      (Backend.create_comment db comment).1.comments =
        db.comments ++ [⟨db.nextCommentId, comment.post_id, comment.content,
                         comment.publication_date⟩] ∧
      (Backend.create_comment db comment).2 =
        .ok ⟨db.nextCommentId, comment.post_id, comment.content,
             comment.publication_date⟩ ∧
      (Tortoise.create_comment db comment).1.comments =
        db.comments ++ [⟨db.nextCommentId, comment.post_id, comment.content,
                         comment.publication_date⟩] ∧
      (Tortoise.create_comment db comment).2 =
        .ok ⟨db.nextCommentId, comment.post_id, comment.content,
             comment.publication_date⟩ ∧
      Backend.create_comment_status = 201 ∧
      Tortoise.create_comment_status = 201) := by
  constructor
  · intro h
    constructor <;>
      simp [Backend.create_comment, Tortoise.create_comment, h]
  · intro p hp
    have hfind : (db.comments ++ [(⟨db.nextCommentId, comment.post_id,
        comment.content, comment.publication_date⟩ : CommentRow)]).find?
          (fun r => r.id == db.nextCommentId) =
        some ⟨db.nextCommentId, comment.post_id, comment.content,
              comment.publication_date⟩ :=
      find?_key_insert CommentRow.id db.comments _ db.nextCommentId rfl
        (fun c hc => Nat.ne_of_lt (hwf.2.1 c hc))
    refine ⟨?_, ?_, ?_, ?_, rfl, rfl⟩ <;>
      simp [Backend.create_comment, Tortoise.create_comment, hp, hfind]

/-- Witness for C1 at the example store: the comment references the
existing post 1. -/
theorem create_comment_contract_witness :
    (Backend.create_comment exampleDB ⟨1, "hi", 9⟩).2 = .ok ⟨2, 1, "hi", 9⟩ ∧
    (Backend.create_comment exampleDB ⟨1, "hi", 9⟩).1.comments =
      exampleDB.comments ++ [⟨2, 1, "hi", 9⟩] ∧
    (Tortoise.create_comment exampleDB ⟨1, "hi", 9⟩).2 = .ok ⟨2, 1, "hi", 9⟩ := by
  have h := (create_comment_contract exampleDB ⟨1, "hi", 9⟩ (by decide)).2
    examplePost rfl
  exact ⟨h.2.1, h.1, h.2.2.2.1⟩

/-- C2: for an existing post, a partial update changes exactly the fields
present in the body; omitted fields — the other of title/content, the id
and the publication date — keep their prior values, and rows with a
different id are untouched, in both variants. -/
theorem update_post_partial_frame (db : DB) (id : Nat)
    (upd : PostPartialUpdate) (r : PostRow) (h : findPost db id = some r) :
    findPost (Backend.update_post db id upd).1 id =
      some (applyPartialUpdate upd r) ∧
    findPost (Tortoise.update_post db id upd).1 id =
      some (applyPartialUpdate upd r) ∧
    (applyPartialUpdate upd r).id = r.id ∧
    (applyPartialUpdate upd r).publication_date = r.publication_date ∧
    (upd.title = none → (applyPartialUpdate upd r).title = r.title) ∧
    (upd.content = none → (applyPartialUpdate upd r).content = r.content) ∧
    (∀ t, upd.title = some t → (applyPartialUpdate upd r).title = t) ∧
    (∀ c, upd.content = some c → (applyPartialUpdate upd r).content = c) ∧
    (∀ q ∈ db.posts, q.id ≠ id →
      q ∈ (Backend.update_post db id upd).1.posts ∧
      q ∈ (Tortoise.update_post db id upd).1.posts) := by
  have hid : r.id = id := findPost_id h
  subst hid
  have hb : Backend.get_post_or_404 db r.id =
      .ok ⟨r.id, r.title, r.content, r.publication_date,
           relatedComments db r.id⟩ := by
    simp [Backend.get_post_or_404, h]
  have ht : Tortoise.get_post_or_404 db r.id =
      .ok ⟨r.id, r.title, r.content, r.publication_date,
           relatedComments db r.id⟩ := by
    simp [Tortoise.get_post_or_404, h]
  have hup := find?_update_where db.posts r.id upd r h
  refine ⟨?_, ?_, rfl, rfl,
    fun hti => by simp [applyPartialUpdate, hti],
    fun hco => by simp [applyPartialUpdate, hco],
    fun t hti => by simp [applyPartialUpdate, hti],
    fun c hco => by simp [applyPartialUpdate, hco],
    fun q hq hne => ⟨?_, ?_⟩⟩
  · simpa [Backend.update_post, hb, findPost] using hup
  · simpa [Tortoise.update_post, ht, findPost] using hup
  · simp only [Backend.update_post, hb]
    exact List.mem_map.mpr ⟨q, hq, by simp [hne]⟩
  · simp only [Tortoise.update_post, ht]
    exact List.mem_map.mpr ⟨q, hq, by simp [hne]⟩

/-- Witness for C2: updating post 1 of the example store with only a new
title leaves its content, id and publication date unchanged. -/
theorem update_post_partial_frame_witness :
    findPost (Backend.update_post exampleDB 1 ⟨some "T", none⟩).1 1 =
      some ⟨1, "T", "B", 5⟩ ∧
    findPost (Tortoise.update_post exampleDB 1 ⟨some "T", none⟩).1 1 =
      some ⟨1, "T", "B", 5⟩ := by
  have h := update_post_partial_frame exampleDB 1 ⟨some "T", none⟩
    examplePost rfl
  exact ⟨h.1, h.2.1⟩

/-- C5: creating a post and immediately fetching it by the returned
identifier yields, in both variants, a post with an empty comments
collection whose title, content and publication date equal the submitted
values; an omitted publication date defaults to the creation time. -/
theorem create_post_then_get (db : DB) (title content : String)
    (pub? : Option Nat) (now : Nat) (hwf : WF db) :
    Backend.get_post_or_404
        (Backend.create_post db (parsePostCreate title content pub? now)).1
        (Backend.create_post db (parsePostCreate title content pub? now)).2 =
      .ok ⟨db.nextPostId, title, content, pub?.getD now, []⟩ ∧
    Tortoise.get_post_or_404
        (Tortoise.create_post db (parsePostCreate title content pub? now)).1
        (Tortoise.create_post db (parsePostCreate title content pub? now)).2 =
      .ok ⟨db.nextPostId, title, content, pub?.getD now, []⟩ ∧
    (pub? = none →
      (parsePostCreate title content pub? now).publication_date = now) ∧
    Backend.create_post_status = 201 ∧ Tortoise.create_post_status = 201 := by
  have hfind := find?_key_insert PostRow.id db.posts
    ⟨db.nextPostId, title, content, pub?.getD now⟩ db.nextPostId rfl
    (fun p hp => Nat.ne_of_lt (hwf.1 p hp))
  have hcom : db.comments.filter (fun c => c.post_id == db.nextPostId) = [] :=
    List.filter_eq_nil_iff.mpr
      (fun c hc => by simpa using Nat.ne_of_lt (hwf.2.2 c hc))
  refine ⟨?_, ?_, fun hp => by simp [parsePostCreate, hp], rfl, rfl⟩ <;>
    simp [Backend.create_post, Tortoise.create_post, Backend.get_post_or_404,
      Tortoise.get_post_or_404, findPost, relatedComments, parsePostCreate,
      hfind, hcom]

/-- Witness for C5 at the example store with an omitted publication date. -/
theorem create_post_then_get_witness :
    Backend.get_post_or_404
        (Backend.create_post exampleDB (parsePostCreate "t" "c" none 42)).1
        (Backend.create_post exampleDB (parsePostCreate "t" "c" none 42)).2 =
      .ok ⟨2, "t", "c", 42, []⟩ ∧
    (parsePostCreate "t" "c" none 42).publication_date = 42 := by
  have h := create_post_then_get exampleDB "t" "c" none 42 (by decide)
  exact ⟨h.1, h.2.2.1 rfl⟩

/-- C6: in both variants, deleting an existing post succeeds with no body
(decorator status 204), removes the row so that a subsequent fetch of the
same identifier returns 404; deleting an absent identifier itself returns
404 and changes nothing. -/
theorem delete_post_contract (db : DB) (id : Nat) :
    (findPost db id = none →
      Backend.delete_post db id = (db, .error 404) ∧
      Tortoise.delete_post db id = (db, .error 404)) ∧
    (∀ r, findPost db id = some r →
      (Backend.delete_post db id).2 = .ok () ∧
      findPost (Backend.delete_post db id).1 id = none ∧
      Backend.get_post_or_404 (Backend.delete_post db id).1 id = .error 404 ∧
      (Tortoise.delete_post db id).2 = .ok () ∧
      findPost (Tortoise.delete_post db id).1 id = none ∧
      Tortoise.get_post_or_404 (Tortoise.delete_post db id).1 id = .error 404 ∧
      Backend.delete_post_status = 204 ∧
      Tortoise.delete_post_status = 204) := by
  constructor
  · intro h
    constructor <;>
      simp [Backend.delete_post, Tortoise.delete_post,
        Backend.get_post_or_404, Tortoise.get_post_or_404, h]
  · intro r h
    have hid : r.id = id := findPost_id h
    subst hid
    simp only [findPost] at h
    have hmem : ∀ p ∈ db.posts.filter (fun p => !(p.id == r.id)),
        ¬((p.id == r.id) = true) :=
      fun p hp => by simpa using (List.mem_filter.mp hp).2
    have hnone : (db.posts.filter (fun p => !(p.id == r.id))).find?
        (fun p => p.id == r.id) = none := List.find?_eq_none.mpr hmem
    refine ⟨?_, ?_, ?_, ?_, ?_, ?_, rfl, rfl⟩
    · simp [Backend.delete_post, Backend.get_post_or_404, findPost, h]
    · simp only [Backend.delete_post, Backend.get_post_or_404, findPost, h]
      simp
    · simp only [Backend.delete_post, Backend.get_post_or_404, findPost, h]
      simp [hnone]
    · simp [Tortoise.delete_post, Tortoise.get_post_or_404, findPost, h]
    · simp only [Tortoise.delete_post, Tortoise.get_post_or_404, findPost, h]
      simp
    · simp only [Tortoise.delete_post, Tortoise.get_post_or_404, findPost, h]
      simp [hnone]

/-- Witness for C6: deleting post 1 of the example store, then fetching
it, yields 404 in both variants. -/
theorem delete_post_contract_witness :
    (Backend.delete_post exampleDB 1).2 = .ok () ∧
    Backend.get_post_or_404 (Backend.delete_post exampleDB 1).1 1 =
      .error 404 ∧
    Tortoise.get_post_or_404 (Tortoise.delete_post exampleDB 1).1 1 =
      .error 404 ∧
    Backend.delete_post exampleDB 5 = (exampleDB, .error 404) := by
  have h := (delete_post_contract exampleDB 1).2 examplePost rfl
  have h2 := (delete_post_contract exampleDB 5).1 rfl
  exact ⟨h.1, h.2.2.1, h.2.2.2.2.2.1, h2.1⟩

/-- Witness for C4 at the example store and identifier 1. -/
theorem get_post_or_404_contract_witness :
    Backend.get_post_or_404 exampleDB 1 =
      .ok ⟨examplePost.id, examplePost.title, examplePost.content,
           examplePost.publication_date, relatedComments exampleDB 1⟩ ∧
    (∀ c ∈ relatedComments exampleDB 1, c.post_id = 1) ∧
    Backend.get_post_or_404 emptyDB 1 = .error 404 := by
  have h := (get_post_or_404_contract exampleDB 1).2.2 examplePost rfl
  have h2 := (get_post_or_404_contract emptyDB 1).1
  exact ⟨h.1, h.2.2, h2.mpr rfl⟩

/-- C8 counterexample: updating post 1 of the example store (which holds a
comment) with only a new content, the two variants' HTTP-serialized
responses — both routes declare `response_model=PostDB`, which strips the
`comments` key from the backend's returned `PostPublic` — are equal,
refuting the claimed inequality of the returned representations. -/
theorem update_responses_equal_counterexample :
    (Backend.update_post exampleDB 1 ⟨none, some "N"⟩).2.map
        respModelFilterPostDB =
      (Tortoise.update_post exampleDB 1 ⟨none, some "N"⟩).2 ∧
    (Backend.update_post exampleDB 1 ⟨none, some "N"⟩).2.map
        respModelFilterPostDB = .ok ⟨1, "A", "N", 5⟩ := by
  constructor <;> rfl

/-- C8 amended: for the same stored state and the same partial update of
an existing post, the query-builder variant's response is produced by
re-running the `get_post_or_404` read-back (re-reading nested comments)
while the ORM variant's response is the mutated in-memory entity
re-serialized without re-reading comments; but since both PATCH routes
declare `response_model=PostDB`, the comments are stripped during
serialization and the two variants' serialized responses are equal. -/
theorem update_response_filtered_agreement (db : DB) (id : Nat)
    (upd : PostPartialUpdate) (r : PostRow) (h : findPost db id = some r) :
    (Backend.update_post db id upd).2 =
      Backend.get_post_or_404 (Backend.update_post db id upd).1 id ∧
    (Backend.update_post db id upd).2 =
      .ok ⟨r.id, upd.title.getD r.title, upd.content.getD r.content,
           r.publication_date,
           relatedComments (Backend.update_post db id upd).1 id⟩ ∧
    (Tortoise.update_post db id upd).2 =
      .ok ⟨r.id, upd.title.getD r.title, upd.content.getD r.content,
           r.publication_date⟩ ∧
    (Backend.update_post db id upd).2.map respModelFilterPostDB =
      (Tortoise.update_post db id upd).2 := by
  have hid : r.id = id := findPost_id h
  subst hid
  have hb : Backend.get_post_or_404 db r.id =
      .ok ⟨r.id, r.title, r.content, r.publication_date,
           relatedComments db r.id⟩ := by
    simp [Backend.get_post_or_404, h]
  have ht : Tortoise.get_post_or_404 db r.id =
      .ok ⟨r.id, r.title, r.content, r.publication_date,
           relatedComments db r.id⟩ := by
    simp [Tortoise.get_post_or_404, h]
  have hup := find?_update_where db.posts r.id upd r (by simpa [findPost] using h)
  have hlem : Backend.get_post_or_404
      ({ db with posts := db.posts.map (fun p =>
          if p.id == r.id then applyPartialUpdate upd p else p) } : DB) r.id =
      .ok ⟨r.id, upd.title.getD r.title, upd.content.getD r.content,
           r.publication_date,
           relatedComments ({ db with posts := db.posts.map (fun p =>
             if p.id == r.id then applyPartialUpdate upd p else p) } : DB)
             r.id⟩ := by
    simp only [Backend.get_post_or_404, findPost]
    rw [hup]
    simp [applyPartialUpdate]
  refine ⟨?_, ?_, ?_, ?_⟩
  · simp [Backend.update_post, hb]
  · simp only [Backend.update_post, hb]
    exact hlem
  · simp [Tortoise.update_post, ht]
  · simp only [Backend.update_post, Tortoise.update_post, hb, ht]
    rw [hlem]
    simp [Except.map, respModelFilterPostDB]

/-- Witness for the amended C8: updating post 1 of the example store with
only a new content; the backend response is the read-back with the re-read
comment list, the ORM response the bare entity, and the filtered
serializations agree. -/
theorem update_response_filtered_agreement_witness :
    (Backend.update_post exampleDB 1 ⟨none, some "N"⟩).2 =
      .ok ⟨1, "A", "N", 5,
           relatedComments (Backend.update_post exampleDB 1 ⟨none, some "N"⟩).1 1⟩ ∧
    (Tortoise.update_post exampleDB 1 ⟨none, some "N"⟩).2 =
      .ok ⟨1, "A", "N", 5⟩ ∧
    (Backend.update_post exampleDB 1 ⟨none, some "N"⟩).2.map
        respModelFilterPostDB =
      (Tortoise.update_post exampleDB 1 ⟨none, some "N"⟩).2 := by
  have h := update_response_filtered_agreement exampleDB 1 ⟨none, some "N"⟩
    examplePost rfl
  exact ⟨h.2.1, h.2.2.1, h.2.2.2⟩

/-- C9: deleting an existing post leaves the comments table entirely
unchanged in the query-builder variant (dangling comment rows survive),
while the ORM variant — whose comments foreign key carries Tortoise's
default `CASCADE` policy — removes the dependent comment rows; on a store
with a commented post the two variants' resulting comment tables differ. -/
theorem delete_comments_divergence (db : DB) (id : Nat) (r : PostRow)
    (h : findPost db id = some r) :
    (Backend.delete_post db id).1.comments = db.comments ∧
    (Tortoise.delete_post db id).1.comments =
      db.comments.filter (fun c => !(c.post_id == id)) ∧
    (∀ c ∈ db.comments, c.post_id = id →
      c ∈ (Backend.delete_post db id).1.comments ∧
      c ∉ (Tortoise.delete_post db id).1.comments) ∧
    (Backend.delete_post exampleDB 1).1.comments ≠
      (Tortoise.delete_post exampleDB 1).1.comments := by
  have hid : r.id = id := findPost_id h
  subst hid
  have hb : Backend.get_post_or_404 db r.id =
      .ok ⟨r.id, r.title, r.content, r.publication_date,
           relatedComments db r.id⟩ := by
    simp [Backend.get_post_or_404, h]
  have ht : Tortoise.get_post_or_404 db r.id =
      .ok ⟨r.id, r.title, r.content, r.publication_date,
           relatedComments db r.id⟩ := by
    simp [Tortoise.get_post_or_404, h]
  refine ⟨?_, ?_, fun c hc hcid => ⟨?_, ?_⟩, by decide⟩
  · simp [Backend.delete_post, hb]
  · simp [Tortoise.delete_post, ht]
  · simpa [Backend.delete_post, hb] using hc
  · simp only [Tortoise.delete_post, ht]
    intro hmem
    have := (List.mem_filter.mp hmem).2
    simp [hcid] at this

/-- Witness for C9 at the example store: post 1 has one comment; the
backend keeps it after the delete, the ORM variant removes it. -/
theorem delete_comments_divergence_witness :
    (Backend.delete_post exampleDB 1).1.comments = exampleDB.comments ∧
    exampleComment ∈ (Backend.delete_post exampleDB 1).1.comments ∧
    exampleComment ∉ (Tortoise.delete_post exampleDB 1).1.comments := by
  have h := delete_comments_divergence exampleDB 1 examplePost rfl
  have hm := h.2.2.1 exampleComment (by decide) rfl
  exact ⟨h.1, hm.1, hm.2⟩

/-- C10: the `detail` of the 400 response for a comment whose `post_id`
names no post is the same constant string in both variants for every
request — the f-string interpolates the Python builtin `id`, so the
requested `post_id` (whose decimal rendering is a nonempty all-digit run)
never occurs in the digit-free message, and any two unknown ids produce
identical error responses. -/
theorem comment_error_detail_constant (db₁ db₂ : DB)
    (c₁ c₂ : CommentCreate)
    (h₁ : findPost db₁ c₁.post_id = none)
    (h₂ : findPost db₂ c₂.post_id = none) :
    (Backend.create_comment db₁ c₁).2 =
      .error (400, "Post <built-in function id> does not exist") ∧
    (Backend.create_comment db₁ c₁).2 = (Backend.create_comment db₂ c₂).2 ∧
    (Tortoise.create_comment db₁ c₁).2 = (Tortoise.create_comment db₂ c₂).2 ∧
    (Backend.create_comment db₁ c₁).2 = (Tortoise.create_comment db₂ c₂).2 ∧
    ¬ containsSeq (Nat.repr c₁.post_id).toList
        (Backend.comment_error_detail c₁.post_id).toList := by
  refine ⟨?_, ?_, ?_, ?_, ?_⟩
  · simp [Backend.create_comment, Backend.comment_error_detail, h₁]
  · simp [Backend.create_comment, Backend.comment_error_detail, h₁, h₂]
  · simp [Tortoise.create_comment, Tortoise.comment_error_detail, h₁, h₂]
  · simp [Backend.create_comment, Tortoise.create_comment,
      Backend.comment_error_detail, Tortoise.comment_error_detail, h₁, h₂]
  · have hmsg : Backend.comment_error_detail c₁.post_id =
        "Post <built-in function id> does not exist" := rfl
    rw [hmsg]
    exact not_containsSeq_of_no_digit (repr_toList_ne_nil _)
      (repr_chars_isDigit _) (by decide)

/-- Witness for C10: two distinct unknown ids against the empty store
yield identical 400 responses. -/
theorem comment_error_detail_constant_witness :
    (Backend.create_comment emptyDB ⟨5, "x", 0⟩).2 =
      .error (400, "Post <built-in function id> does not exist") ∧
    (Backend.create_comment emptyDB ⟨5, "x", 0⟩).2 =
      (Backend.create_comment emptyDB ⟨7, "y", 0⟩).2 ∧
    ¬ containsSeq (Nat.repr 5).toList
        (Backend.comment_error_detail 5).toList := by
  have h := comment_error_detail_constant emptyDB emptyDB
    ⟨5, "x", 0⟩ ⟨7, "y", 0⟩ rfl rfl
  exact ⟨h.1, h.2.1, h.2.2.2.2⟩

end FastApiBlog
